import Mathlib

/-!
Verification of the report-generation pipeline of `src/app.py`
(`build_excel_bytes` and its helpers) against its specification.

Modelling conventions:
* A raw input row keeps the three positional fields the code reads
  (route = column 1, status = column 9, statusTime = column 11) plus the
  two optional detected columns.  A missing cell is `none`; the status cell
  is kept as the raw text (the code totalises it with `astype(str)`).
* Timestamps are rationals (naive seconds); `pd.to_datetime(..., errors="coerce")`
  is modelled by the row carrying `Option ℚ` directly, `none` for an
  unparseable value.  `(now - t).total_seconds() / 60` becomes
  `(now - t) / 60` with `now : ℚ` the single captured naive instant.
* The captured wall clock is split, as in the code, into the naive
  timestamp `now` used for differences and the Eastern hour `nowHour : ℕ`
  used by the time gates (`now_et.hour`).
* The RouteMetrics structure carries the exact quantities: the code
  classifies the alert bucket on the unrounded `minutes_since_last` before
  building its row dict.  The dict then stores `round(minutes_since_last, 1)`
  and `round(per_hour, 2)`, and it is these stored, rounded values that feed
  the sort key, the Exceptions filter and the Summary mean; `storedMinutes`
  and `storedPerHour` model the stored columns via `pyRound`, a ℚ model of
  Python's round-half-to-even.  (The binary floating-point representation
  artifacts of CPython's `round` on doubles are not modelled; the stored
  `HoursSinceFirstDelivery` rounding has no downstream consumer.)  The
  Summary then rounds the mean itself once more
  (`summary_df["AvgDeliveriesPerHour"].round(2)`).
* `pandas.groupby(col, dropna=True)` drops only missing (`none`) keys; it is
  modelled by collecting the distinct `some` keys and filtering the rows.
* `DataFrame.sort_values` by the two keys is modelled by an insertion sort
  with the corresponding order relation (tie order is not relied upon).
-/

/-- One normalized input row: positional fields route/status/statusTime plus
the optional detected FLEE/DRIVER columns. -/
structure RawRow where
  route : Option String
  status : String
  time : Option ℚ
  flee : Option String
  driver : Option String
deriving DecidableEq, Repr

/-- Character-wise uppercase; extensionally `String.toUpper`, stated on the
underlying character list so that it evaluates by kernel reduction. -/
def upper (s : String) : String :=
  ⟨s.data.map Char.toUpper⟩

/-- Uppercased status, mirroring `df[status_col].astype(str).str.upper()`. -/
def statusU (r : RawRow) : String :=
  upper r.status

/-- Whether `pat` occurs at the head of `s` (character-list version). -/
def leadsWith : List Char → List Char → Bool
  | [], _ => true
  | _ :: _, [] => false
  | p :: ps, c :: cs => p == c && leadsWith ps cs

/-- Whether `pat` occurs as a contiguous substring of `s`. -/
def hasSub (pat : List Char) : List Char → Bool
  | [] => pat.isEmpty
  | c :: cs => leadsWith pat (c :: cs) || hasSub pat cs

/-- Mirrors `g["StatusU"].str.contains("FAIL", na=False)` (literal substring). -/
def hasFail (s : String) : Bool :=
  hasSub "FAIL".toList s.toList

/-- Row counted as delivered: `g["StatusU"] == "DELIVERED"`. -/
def deliveredP (r : RawRow) : Bool :=
  statusU r == "DELIVERED"

/-- Row counted as failed: uppercased status contains `"FAIL"`. -/
def failedP (r : RawRow) : Bool :=
  hasFail (statusU r)

/-- Row selected into `delivered_rows`:
`(g["StatusU"] == "DELIVERED") & g[time_col].notna()`. -/
def deliveredTimedP (r : RawRow) : Bool :=
  deliveredP r && r.time.isSome

/-- The timestamps of the delivered-with-timestamp rows of a group. -/
def delTimesOf (g : List RawRow) : List ℚ :=
  (g.filter deliveredTimedP).filterMap RawRow.time

/-- One row of the per-route table, the record the loop appends to `rows`. -/
structure RouteMetrics where
  route : String
  driverName : Option String
  fleeName : Option String
  total : ℕ
  delivered : ℕ
  failed : ℕ
  remaining : ℤ
  completionRate : ℚ
  firstDeliveredAt : Option ℚ
  lastDeliveredAt : Option ℚ
  minutesSinceLast : Option ℚ
  hoursSinceFirst : Option ℚ
  deliveriesPerHour : Option ℚ
  statusFlag : String
  alertBucket : String
deriving DecidableEq, Repr

/-- Per-route metrics for one group `g` of rows sharing route key `route`,
mirroring the body of the `for route, g in df.groupby(...)` loop. -/
def mkRouteMetrics (now : ℚ) (route : String) (g : List RawRow) : RouteMetrics :=
  let total := g.length
  let delivered := g.countP deliveredP
  let failed := g.countP failedP
  let remaining : ℤ := (total : ℤ) - (delivered : ℤ) - (failed : ℤ)
  let completion : ℚ := if total = 0 then 0 else (delivered : ℚ) / (total : ℚ)
  let flee := (g.filterMap RawRow.flee).head?
  let driver := (g.filterMap RawRow.driver).head?
  match delTimesOf g with
  | [] =>
      { route := route, driverName := driver, fleeName := flee,
        total := total, delivered := delivered, failed := failed,
        remaining := remaining, completionRate := completion,
        firstDeliveredAt := none, lastDeliveredAt := none,
        minutesSinceLast := none, hoursSinceFirst := none,
        deliveriesPerHour := none,
        statusFlag := "NO_DELIVERED", alertBucket := "NO_DELIVERED" }
  | t :: ts =>
      let firstDel := ts.foldl min t
      let lastDel := ts.foldl max t
      let msl : ℚ := (now - lastDel) / 60
      let hsf : ℚ := (now - firstDel) / 3600
      let perHour : Option ℚ := if 0 < hsf then some ((delivered : ℚ) / hsf) else none
      { route := route, driverName := driver, fleeName := flee,
        total := total, delivered := delivered, failed := failed,
        remaining := remaining, completionRate := completion,
        firstDeliveredAt := some firstDel, lastDeliveredAt := some lastDel,
        minutesSinceLast := some msl, hoursSinceFirst := some hsf,
        deliveriesPerHour := perHour,
        statusFlag := "HAS_DELIVERED",
        alertBucket :=
          if 60 < msl then "RED" else if 30 < msl then "YELLOW" else "OK" }

/-- The distinct non-missing route keys, mirroring
`df.groupby(route_col, dropna=True)`: missing keys are dropped, every
remaining distinct value forms one group. -/
def routeKeys (rows : List RawRow) : List String :=
  (rows.filterMap RawRow.route).dedup

/-- The unsorted per-route table `route_df`. -/
def routeTable (now : ℚ) (rows : List RawRow) : List RouteMetrics :=
  (routeKeys rows).map fun k =>
    mkRouteMetrics now k (rows.filter fun r => r.route == some k)

/-- Round half to even at the integers, the rounding mode of Python's
`round` (on an exactly represented argument). -/
def halfEven (x : ℚ) : ℤ :=
  if x - ⌊x⌋ < 1 / 2 then ⌊x⌋
  else if 1 / 2 < x - ⌊x⌋ then ⌊x⌋ + 1
  else if ⌊x⌋ % 2 = 0 then ⌊x⌋ else ⌊x⌋ + 1

/-- Model of Python's `round(x, n)`: round half to even at the n-th decimal. -/
def pyRound (n : ℕ) (x : ℚ) : ℚ :=
  (halfEven (x * 10 ^ n) : ℤ) / 10 ^ n

/-- The `MinutesSinceLast` column as the row dict stores it:
`round(minutes_since_last, 1) if minutes_since_last is not None else None`. -/
def storedMinutes (m : RouteMetrics) : Option ℚ :=
  m.minutesSinceLast.map (pyRound 1)

/-- The `DeliveriesPerHour` column as the row dict stores it:
`round(per_hour, 2) if per_hour is not None else None`. -/
def storedPerHour (m : RouteMetrics) : Option ℚ :=
  m.deliveriesPerHour.map (pyRound 2)

/-- The sort key `_sort = MinutesSinceLast.fillna(10**9)`, read off the
stored (rounded) column. -/
def sortKey (m : RouteMetrics) : ℚ :=
  (storedMinutes m).getD (10 ^ 9)

/-- Lexicographic code-point comparison of character lists, the order pandas
uses on string keys. -/
def charsLt : List Char → List Char → Bool
  | [], [] => false
  | [], _ :: _ => true
  | _ :: _, [] => false
  | a :: as, b :: bs => a < b || (a == b && charsLt as bs)

/-- Lexicographic string comparison (code-point order). -/
def strLt (a b : String) : Bool :=
  charsLt a.data b.data

/-- The order used by
`sort_values(["StatusFlag", "_sort"], ascending=[True, False])`:
status flag ascending (string order), then the filled minutes descending. -/
def routeOrder (a b : RouteMetrics) : Prop :=
  strLt a.statusFlag b.statusFlag = true
    ∨ (a.statusFlag = b.statusFlag ∧ sortKey b ≤ sortKey a)

instance : DecidableRel routeOrder := fun a b => by
  unfold routeOrder
  infer_instance

/-- The sorted per-route table (`route_df` after `sort_values`). -/
def sortedRoutes (now : ℚ) (rows : List RawRow) : List RouteMetrics :=
  (routeTable now rows).insertionSort routeOrder

/-- The exception predicate of the `exc_df` filter, reading the stored
(rounded) `MinutesSinceLast` and `DeliveriesPerHour` columns. -/
def excPred (m : RouteMetrics) : Bool :=
  (m.statusFlag == "NO_DELIVERED")
    || (decide (120 < (storedMinutes m).getD 0) && decide (0 < m.remaining))
    || (decide ((storedPerHour m).getD 999 < 10) && decide (0 < m.remaining))

/-- The `Exceptions` subset `exc_df`. -/
def excTable (now : ℚ) (rows : List RawRow) : List RouteMetrics :=
  (sortedRoutes now rows).filter excPred

/-- Mirrors `after_3pm = now_et.hour >= 15`. -/
def after3pm (nowHour : ℕ) : Bool :=
  15 ≤ nowHour

/-- Mirrors `after_6pm = now_et.hour >= 18`. -/
def after6pm (nowHour : ℕ) : Bool :=
  18 ≤ nowHour

/-- The `3pm check` subset `check_3pm`. -/
def check3pm (now : ℚ) (nowHour : ℕ) (rows : List RawRow) : List RouteMetrics :=
  if after3pm nowHour then
    (sortedRoutes now rows).filter fun m => decide (m.completionRate < 1 / 2)
  else []

/-- The `6pm check` subset `check_6pm`. -/
def check6pm (now : ℚ) (nowHour : ℕ) (rows : List RawRow) : List RouteMetrics :=
  if after6pm nowHour then
    (sortedRoutes now rows).filter fun m => decide (m.completionRate < 4 / 5)
  else []

/-- The `RuleApplied` cell of the `3pm check` sheet. -/
def ruleApplied3pm (nowHour : ℕ) : String :=
  if after3pm nowHour then "YES" else "NO (before 3 PM ET)"

/-- The `RuleApplied` cell of the `6pm check` sheet. -/
def ruleApplied6pm (nowHour : ℕ) : String :=
  if after6pm nowHour then "YES" else "NO (before 6 PM ET)"

/-- One row of the carrier `Summary` sheet. -/
structure CarrierSummary where
  fleeName : String
  routes : ℕ
  totalPkgs : ℕ
  delivered : ℕ
  failed : ℕ
  remaining : ℤ
  noDeliveredRoutes : ℕ
  redRoutes : ℕ
  yellowRoutes : ℕ
  avgDeliveriesPerHour : Option ℚ
  completionRate : ℚ
deriving DecidableEq, Repr

/-- The carrier key of a route row: `FleeName.fillna("UNKNOWN")`. -/
def carrierKeyOf (m : RouteMetrics) : String :=
  m.fleeName.getD "UNKNOWN"

/-- Distinct carrier keys of the table (`sum_df.groupby("FleeName")`). -/
def carrierKeys (tbl : List RouteMetrics) : List String :=
  (tbl.map carrierKeyOf).dedup

/-- The member routes of one carrier group. -/
def carrierGroup (tbl : List RouteMetrics) (k : String) : List RouteMetrics :=
  tbl.filter fun m => carrierKeyOf m == k

/-- One aggregated carrier row, mirroring the `summary_df` aggregation:
sums of the count columns, NO_DELIVERED/RED/YELLOW route counts, the
absent-skipping mean of the stored (rounded) `DeliveriesPerHour` column with
the final `.round(2)` applied to it, and
`CompletionRate = (Delivered / TotalPkgs).fillna(0.0)`. -/
def mkCarrierSummary (k : String) (grp : List RouteMetrics) : CarrierSummary :=
  let totalPkgs := (grp.map RouteMetrics.total).sum
  let delivered := (grp.map RouteMetrics.delivered).sum
  let phsR := grp.filterMap storedPerHour
  { fleeName := k
    routes := (grp.map RouteMetrics.route).dedup.length
    totalPkgs := totalPkgs
    delivered := delivered
    failed := (grp.map RouteMetrics.failed).sum
    remaining := (grp.map RouteMetrics.remaining).sum
    noDeliveredRoutes := grp.countP fun m => m.statusFlag == "NO_DELIVERED"
    redRoutes := grp.countP fun m => m.alertBucket == "RED"
    yellowRoutes := grp.countP fun m => m.alertBucket == "YELLOW"
    avgDeliveriesPerHour :=
      if phsR.isEmpty then none
      else some (pyRound 2 (phsR.sum / (phsR.length : ℚ)))
    completionRate :=
      if totalPkgs = 0 then 0 else (delivered : ℚ) / (totalPkgs : ℚ) }

/-- The carrier `Summary` table. -/
def carrierTable (now : ℚ) (rows : List RawRow) : List CarrierSummary :=
  (carrierKeys (sortedRoutes now rows)).map fun k =>
    mkCarrierSummary k (carrierGroup (sortedRoutes now rows) k)

example : hasFail (upper "Failed_Address") = true := by decide
example : hasFail "DELIVERED" = false := by decide
example : statusU ⟨some "R1", "Delivered", some 0, none, none⟩ = "DELIVERED" := by decide

/-! Sample rows used to instantiate the theorems on concrete inputs. -/

/-- A pending (never delivered) row of route "A". -/
def rowA : RawRow := ⟨some "A", "Pending", none, some "FleetOne", none⟩

/-- A delivered, timestamped row of route "B" (delivered at instant 0). -/
def rowB : RawRow := ⟨some "B", "Delivered", some 0, some "FleetOne", none⟩

/-- A row whose route cell holds the empty string. -/
def rowEmptyRoute : RawRow := ⟨some "", "PENDING", none, none, none⟩

/-! Projection lemmas for `mkRouteMetrics`: the fields that do not depend on
the delivered-rows branch. -/

lemma mkRouteMetrics_route (now : ℚ) (route : String) (g : List RawRow) :
    (mkRouteMetrics now route g).route = route := by
  cases h : delTimesOf g <;> simp [mkRouteMetrics, h]

lemma mkRouteMetrics_total (now : ℚ) (route : String) (g : List RawRow) :
    (mkRouteMetrics now route g).total = g.length := by
  cases h : delTimesOf g <;> simp [mkRouteMetrics, h]

lemma mkRouteMetrics_delivered (now : ℚ) (route : String) (g : List RawRow) :
    (mkRouteMetrics now route g).delivered = g.countP deliveredP := by
  cases h : delTimesOf g <;> simp [mkRouteMetrics, h]

lemma mkRouteMetrics_failed (now : ℚ) (route : String) (g : List RawRow) :
    (mkRouteMetrics now route g).failed = g.countP failedP := by
  cases h : delTimesOf g <;> simp [mkRouteMetrics, h]

lemma mkRouteMetrics_remaining (now : ℚ) (route : String) (g : List RawRow) :
    (mkRouteMetrics now route g).remaining
      = (g.length : ℤ) - (g.countP deliveredP : ℤ) - (g.countP failedP : ℤ) := by
  cases h : delTimesOf g <;> simp [mkRouteMetrics, h]

lemma mkRouteMetrics_completionRate (now : ℚ) (route : String) (g : List RawRow) :
    (mkRouteMetrics now route g).completionRate
      = if g.length = 0 then 0 else (g.countP deliveredP : ℚ) / (g.length : ℚ) := by
  cases h : delTimesOf g <;> simp [mkRouteMetrics, h]

/-- The delivered-with-timestamp rows of a group are empty exactly when no row
is both delivered (uppercased status `"DELIVERED"`) and timestamped. -/
lemma delTimesOf_eq_nil_iff (g : List RawRow) :
    delTimesOf g = [] ↔ ¬ ∃ r ∈ g, statusU r = "DELIVERED" ∧ r.time.isSome = true := by
  constructor
  · intro h ⟨r, hr, hst, hsome⟩
    have hdt : deliveredTimedP r = true := by
      simp [deliveredTimedP, deliveredP, hst, hsome]
    have hmem : r ∈ g.filter deliveredTimedP := List.mem_filter.mpr ⟨hr, hdt⟩
    obtain ⟨t, ht⟩ := Option.isSome_iff_exists.mp hsome
    have : t ∈ delTimesOf g := List.mem_filterMap.mpr ⟨r, hmem, ht⟩
    simp [h] at this
  · intro h
    rw [delTimesOf, List.filterMap_eq_nil_iff]
    intro r hr
    have hg : r ∈ g := (List.mem_filter.mp hr).1
    have hdt : deliveredTimedP r = true := (List.mem_filter.mp hr).2
    have : statusU r = "DELIVERED" ∧ r.time.isSome = true := by
      simpa [deliveredTimedP, deliveredP] using hdt
    exact absurd ⟨r, hg, this⟩ h

/-- Two mutually exclusive boolean predicates count at most the length. -/
lemma countP_add_countP_le_length (p q : RawRow → Bool) (l : List RawRow)
    (h : ∀ x ∈ l, ¬(p x = true ∧ q x = true)) :
    l.countP p + l.countP q ≤ l.length := by
  induction l with
  | nil => simp
  | cons x xs ih =>
      have hx := h x (List.mem_cons_self x xs)
      have hxs : ∀ y ∈ xs, ¬(p y = true ∧ q y = true) := fun y hy =>
        h y (List.mem_cons_of_mem x hy)
      have := ih hxs
      by_cases hp : p x = true
      · by_cases hq : q x = true
        · exact absurd ⟨hp, hq⟩ hx
        · simp only [List.countP_cons, hp, hq, List.length_cons, if_pos, if_neg,
            Bool.false_eq_true, ite_true, ite_false]
          omega
      · by_cases hq : q x = true <;>
          simp only [List.countP_cons, hp, hq, List.length_cons, Bool.false_eq_true,
            ite_true, ite_false] <;> omega

/-- C1: statusFlag is NO_DELIVERED iff the group has no row whose uppercased
status equals "DELIVERED" with a successfully parsed timestamp; and under
NO_DELIVERED the five time-derived fields are absent and the alert bucket is
NO_DELIVERED. -/
theorem no_delivered_flag_spec (now : ℚ) (route : String) (g : List RawRow) :
    ((mkRouteMetrics now route g).statusFlag = "NO_DELIVERED" ↔
      ¬ ∃ r ∈ g, statusU r = "DELIVERED" ∧ r.time.isSome = true) ∧
    ((mkRouteMetrics now route g).statusFlag = "NO_DELIVERED" →
      (mkRouteMetrics now route g).firstDeliveredAt = none ∧
      (mkRouteMetrics now route g).lastDeliveredAt = none ∧
      (mkRouteMetrics now route g).minutesSinceLast = none ∧
      (mkRouteMetrics now route g).hoursSinceFirst = none ∧
      (mkRouteMetrics now route g).deliveriesPerHour = none ∧
      (mkRouteMetrics now route g).alertBucket = "NO_DELIVERED") := by
  cases h : delTimesOf g with
  | nil =>
      have hflag : (mkRouteMetrics now route g).statusFlag = "NO_DELIVERED" := by
        simp [mkRouteMetrics, h]
      refine ⟨iff_of_true hflag ((delTimesOf_eq_nil_iff g).mp h), ?_⟩
      · intro _
        simp [mkRouteMetrics, h]
  | cons t ts =>
      have hne : delTimesOf g ≠ [] := by simp [h]
      have hex : ∃ r ∈ g, statusU r = "DELIVERED" ∧ r.time.isSome = true :=
        not_not.mp ((not_congr (delTimesOf_eq_nil_iff g)).mp hne)
      have hflag : (mkRouteMetrics now route g).statusFlag = "HAS_DELIVERED" := by
        simp [mkRouteMetrics, h]
      refine ⟨iff_of_false ?_ (not_not.mpr hex), ?_⟩
      · rw [hflag]
        decide
      · intro hc
        rw [hflag] at hc
        exact absurd hc (by decide)

/-- C1 witness: a group with a single never-delivered row. -/
theorem no_delivered_flag_spec_witness :
    (mkRouteMetrics 600 "A" [rowA]).firstDeliveredAt = none ∧
    (mkRouteMetrics 600 "A" [rowA]).lastDeliveredAt = none ∧
    (mkRouteMetrics 600 "A" [rowA]).minutesSinceLast = none ∧
    (mkRouteMetrics 600 "A" [rowA]).hoursSinceFirst = none ∧
    (mkRouteMetrics 600 "A" [rowA]).deliveriesPerHour = none ∧
    (mkRouteMetrics 600 "A" [rowA]).alertBucket = "NO_DELIVERED" :=
  (no_delivered_flag_spec 600 "A" [rowA]).2 (by decide)

/-- C2: under HAS_DELIVERED the alert bucket is RED iff minutesSinceLast > 60,
YELLOW iff 30 < minutesSinceLast ≤ 60, OK iff minutesSinceLast ≤ 30; and the
bucket is NO_DELIVERED iff the status flag is NO_DELIVERED. -/
theorem alert_bucket_spec (now : ℚ) (route : String) (g : List RawRow) :
    ((mkRouteMetrics now route g).statusFlag = "HAS_DELIVERED" →
      (mkRouteMetrics now route g).minutesSinceLast.isSome = true) ∧
    (∀ msl : ℚ, (mkRouteMetrics now route g).statusFlag = "HAS_DELIVERED" →
      (mkRouteMetrics now route g).minutesSinceLast = some msl →
      ((mkRouteMetrics now route g).alertBucket = "RED" ↔ 60 < msl) ∧
      ((mkRouteMetrics now route g).alertBucket = "YELLOW" ↔ 30 < msl ∧ msl ≤ 60) ∧
      ((mkRouteMetrics now route g).alertBucket = "OK" ↔ msl ≤ 30)) ∧
    ((mkRouteMetrics now route g).alertBucket = "NO_DELIVERED" ↔
      (mkRouteMetrics now route g).statusFlag = "NO_DELIVERED") := by
  cases h : delTimesOf g with
  | nil =>
      refine ⟨?_, ?_, ?_⟩
      · intro hflag
        rw [show (mkRouteMetrics now route g).statusFlag = "NO_DELIVERED" by
          simp [mkRouteMetrics, h]] at hflag
        exact absurd hflag (by decide)
      · intro msl hflag _
        rw [show (mkRouteMetrics now route g).statusFlag = "NO_DELIVERED" by
          simp [mkRouteMetrics, h]] at hflag
        exact absurd hflag (by decide)
      · simp [mkRouteMetrics, h]
  | cons t ts =>
      refine ⟨?_, ?_, ?_⟩
      · intro _
        simp [mkRouteMetrics, h]
      · intro msl _ hmsl
        rw [show (mkRouteMetrics now route g).minutesSinceLast
            = some ((now - ts.foldl max t) / 60) by simp [mkRouteMetrics, h]] at hmsl
        obtain rfl : (now - ts.foldl max t) / 60 = msl := Option.some_injective ℚ hmsl
        rw [show (mkRouteMetrics now route g).alertBucket
            = (if 60 < (now - ts.foldl max t) / 60 then "RED"
               else if 30 < (now - ts.foldl max t) / 60 then "YELLOW" else "OK") by
          simp [mkRouteMetrics, h]]
        split_ifs with h60 h30
        · exact ⟨iff_of_true rfl h60,
            iff_of_false (by decide) (fun hc => absurd h60 (not_lt.mpr hc.2)),
            iff_of_false (by decide) (fun hc => absurd h60 (not_lt.mpr (by linarith)))⟩
        · exact ⟨iff_of_false (by decide) h60,
            iff_of_true rfl ⟨h30, not_lt.mp h60⟩,
            iff_of_false (by decide) (fun hc => absurd h30 (not_lt.mpr hc))⟩
        · exact ⟨iff_of_false (by decide) h60,
            iff_of_false (by decide) (fun hc => absurd hc.1 h30),
            iff_of_true rfl (not_lt.mp h30)⟩
      · refine iff_of_false ?_ ?_
        · rw [show (mkRouteMetrics now route g).alertBucket
              = (if 60 < (now - ts.foldl max t) / 60 then "RED"
                 else if 30 < (now - ts.foldl max t) / 60 then "YELLOW" else "OK") by
            simp [mkRouteMetrics, h]]
          split_ifs <;> decide
        · rw [show (mkRouteMetrics now route g).statusFlag = "HAS_DELIVERED" by
            simp [mkRouteMetrics, h]]
          decide

/-- C2 witness: route "B" delivered 10 minutes before the captured instant. -/
theorem alert_bucket_spec_witness :
    ((mkRouteMetrics 600 "B" [rowB]).alertBucket = "RED" ↔
      60 < ((600 : ℚ) - 0) / 60) ∧
    ((mkRouteMetrics 600 "B" [rowB]).alertBucket = "YELLOW" ↔
      30 < ((600 : ℚ) - 0) / 60 ∧ ((600 : ℚ) - 0) / 60 ≤ 60) ∧
    ((mkRouteMetrics 600 "B" [rowB]).alertBucket = "OK" ↔
      ((600 : ℚ) - 0) / 60 ≤ 30) :=
  (alert_bucket_spec 600 "B" [rowB]).2.1 (((600 : ℚ) - 0) / 60) (by decide) rfl

/-- C6: remaining equals total minus delivered minus failed exactly, where
total counts the group's rows, delivered counts rows with uppercased status
equal to "DELIVERED", and failed counts rows whose uppercased status contains
"FAIL"; the subtraction is over ℤ, never clamped. -/
theorem remaining_formula_spec (now : ℚ) (route : String) (g : List RawRow) :
    (mkRouteMetrics now route g).remaining
      = ((mkRouteMetrics now route g).total : ℤ)
        - ((g.filter fun r => decide (statusU r = "DELIVERED")).length : ℤ)
        - ((g.filter fun r => hasFail (statusU r)).length : ℤ) := by
  have hpd : deliveredP = fun r => decide (statusU r = "DELIVERED") := by
    funext r
    by_cases hst : statusU r = "DELIVERED" <;> simp [deliveredP, hst]
  have hpf : failedP = fun r => hasFail (statusU r) := by
    funext r
    rfl
  have hd : g.countP deliveredP
      = (g.filter fun r => decide (statusU r = "DELIVERED")).length := by
    rw [List.countP_eq_length_filter, hpd]
  have hf : g.countP failedP = (g.filter fun r => hasFail (statusU r)).length := by
    rw [List.countP_eq_length_filter, hpf]
  rw [mkRouteMetrics_remaining, mkRouteMetrics_total, hd, hf]

/-- C9: a row counted delivered is never counted failed (the string
"DELIVERED" does not contain "FAIL"), hence delivered + failed never exceeds
total and remaining is non-negative. -/
theorem delivered_failed_disjoint_spec (now : ℚ) (route : String) (g : List RawRow) :
    hasFail "DELIVERED" = false ∧
    (∀ r ∈ g, deliveredP r = true → failedP r = false) ∧
    (mkRouteMetrics now route g).delivered + (mkRouteMetrics now route g).failed
      ≤ (mkRouteMetrics now route g).total ∧
    0 ≤ (mkRouteMetrics now route g).remaining := by
  have hdisj : ∀ r ∈ g, ¬(deliveredP r = true ∧ failedP r = true) := by
    intro r _ ⟨hdel, hfail⟩
    have hst : statusU r = "DELIVERED" := by simpa [deliveredP] using hdel
    rw [failedP, hst] at hfail
    exact absurd hfail (by decide)
  have hle : g.countP deliveredP + g.countP failedP ≤ g.length :=
    countP_add_countP_le_length deliveredP failedP g hdisj
  refine ⟨by decide, ?_, ?_, ?_⟩
  · intro r hr hdel
    by_contra hfail
    exact hdisj r hr ⟨hdel, Bool.not_eq_false _ |>.mp hfail⟩
  · rw [mkRouteMetrics_delivered, mkRouteMetrics_failed, mkRouteMetrics_total]
    exact hle
  · rw [mkRouteMetrics_remaining]
    omega

/-- C9 witness: the delivered row of route "B" is not counted failed, and the
counts of its group satisfy the bound. -/
theorem delivered_failed_disjoint_spec_witness :
    failedP rowB = false ∧
    (mkRouteMetrics 600 "B" [rowB]).delivered + (mkRouteMetrics 600 "B" [rowB]).failed
      ≤ (mkRouteMetrics 600 "B" [rowB]).total :=
  ⟨(delivered_failed_disjoint_spec 600 "B" [rowB]).2.1 rowB (by decide) (by decide),
   (delivered_failed_disjoint_spec 600 "B" [rowB]).2.2.1⟩

/-- C10: every produced route group is non-empty, so total ≥ 1, the zero
divisor fallback of completionRate is unreachable, and completionRate is the
genuine quotient delivered / total. -/
theorem route_group_nonempty_spec (now : ℚ) (rows : List RawRow) (m : RouteMetrics)
    (hm : m ∈ routeTable now rows) :
    1 ≤ m.total ∧ (m.total : ℚ) ≠ 0 ∧
    m.completionRate = (m.delivered : ℚ) / (m.total : ℚ) := by
  obtain ⟨k, hk, rfl⟩ := List.mem_map.mp hm
  obtain ⟨r, hr, hroute⟩ := List.mem_filterMap.mp (List.mem_dedup.mp hk)
  have hmem : r ∈ rows.filter fun r => r.route == some k :=
    List.mem_filter.mpr ⟨hr, by simp [hroute]⟩
  have hlen : 1 ≤ (rows.filter fun r => r.route == some k).length :=
    List.length_pos.mpr (List.ne_nil_of_mem hmem)
  have hne : (rows.filter fun r => r.route == some k).length ≠ 0 := by omega
  refine ⟨?_, ?_, ?_⟩
  · rw [mkRouteMetrics_total]
    exact hlen
  · rw [mkRouteMetrics_total]
    exact_mod_cast hne
  · rw [mkRouteMetrics_completionRate, mkRouteMetrics_total, mkRouteMetrics_delivered,
      if_neg hne]

/-- C10 witness: the single group of the one-row input [rowA]. -/
theorem route_group_nonempty_spec_witness :
    1 ≤ (mkRouteMetrics 600 "A" [rowA]).total ∧
    ((mkRouteMetrics 600 "A" [rowA]).total : ℚ) ≠ 0 ∧
    (mkRouteMetrics 600 "A" [rowA]).completionRate
      = ((mkRouteMetrics 600 "A" [rowA]).delivered : ℚ)
        / ((mkRouteMetrics 600 "A" [rowA]).total : ℚ) :=
  route_group_nonempty_spec 600 [rowA] (mkRouteMetrics 600 "A" [rowA])
    (List.mem_singleton.mpr rfl)

/-- C8 counterexample: a row whose route cell holds the empty string is not
dropped by `groupby(..., dropna=True)`; it produces a RouteMetrics entry whose
route is the empty string. -/
theorem empty_route_entry_produced :
    (routeTable 0 [rowEmptyRoute]).map RouteMetrics.route = [""] := by
  decide

/-- C8 amended: rows with a missing route are dropped before grouping, so the
route key of every produced entry is the route value of some input row whose
route is present (empty strings included, not dropped). -/
theorem route_entries_from_present_rows (now : ℚ) (rows : List RawRow)
    (m : RouteMetrics) (hm : m ∈ routeTable now rows) :
    m.route ∈ rows.filterMap RawRow.route := by
  obtain ⟨k, hk, rfl⟩ := List.mem_map.mp hm
  rw [mkRouteMetrics_route]
  exact List.mem_dedup.mp hk

/-- C8 amended witness: the entry of the one-row input [rowA] has key "A",
the present route value of its row. -/
theorem route_entries_from_present_rows_witness :
    (mkRouteMetrics 600 "A" [rowA]).route ∈ [rowA].filterMap RawRow.route :=
  route_entries_from_present_rows 600 [rowA] (mkRouteMetrics 600 "A" [rowA])
    (List.mem_singleton.mpr rfl)

/-! Evaluation lemmas for `halfEven` at an argument with known floor. -/

lemma halfEven_of_lt (x : ℚ) (f : ℤ) (hf : ⌊x⌋ = f) (h : x - (f : ℚ) < 1 / 2) :
    halfEven x = f := by
  simp only [halfEven, hf]
  rw [if_pos h]

lemma halfEven_of_gt (x : ℚ) (f : ℤ) (hf : ⌊x⌋ = f) (h : 1 / 2 < x - (f : ℚ)) :
    halfEven x = f + 1 := by
  simp only [halfEven, hf]
  rw [if_neg (by linarith), if_pos h]

lemma halfEven_of_tie_even (x : ℚ) (f : ℤ) (hf : ⌊x⌋ = f) (h : x - (f : ℚ) = 1 / 2)
    (he : f % 2 = 0) : halfEven x = f := by
  simp only [halfEven, hf]
  rw [if_neg (by rw [h]; exact lt_irrefl _), if_neg (by rw [h]; exact lt_irrefl _),
    if_pos he]

/-- Two delivered rows of route "R" at instant 0. -/
def cexDelRow : RawRow := ⟨some "R", "Delivered", some 0, none, none⟩

/-- A pending row of route "R". -/
def cexPendRow : RawRow := ⟨some "R", "Pending", none, none, none⟩

/-- A group whose exact deliveries-per-hour is 20000/2001 ≈ 9.995: below 10
exactly, but stored as round(·, 2) = 10.00. -/
def cexRows : List RawRow := [cexDelRow, cexDelRow, cexPendRow]

/-- C3 counterexample: at `now = 18009/25` seconds the route of `cexRows` has
exact deliveriesPerHour 20000/2001 < 10 and remaining 1 > 0, so the claim
(stated on the exact quantities) puts it into Exceptions; the program filters
on the stored `round(per_hour, 2) = 10.00`, which is not `< 10`, and excludes
it. -/
theorem exceptions_rounding_counterexample :
    mkRouteMetrics (18009 / 25) "R" cexRows ∈ sortedRoutes (18009 / 25) cexRows ∧
    (mkRouteMetrics (18009 / 25) "R" cexRows).deliveriesPerHour.getD 999 < 10 ∧
    0 < (mkRouteMetrics (18009 / 25) "R" cexRows).remaining ∧
    mkRouteMetrics (18009 / 25) "R" cexRows ∉ excTable (18009 / 25) cexRows := by
  have hdel : delTimesOf cexRows = [0, 0] := rfl
  have hcnt : List.countP deliveredP cexRows = 2 := rfl
  have hflag : (mkRouteMetrics (18009 / 25) "R" cexRows).statusFlag
      = "HAS_DELIVERED" := rfl
  have hrem : (mkRouteMetrics (18009 / 25) "R" cexRows).remaining = 1 := rfl
  have hmsl : (mkRouteMetrics (18009 / 25) "R" cexRows).minutesSinceLast
      = some (6003 / 500) := by
    simp only [mkRouteMetrics, hdel, List.foldl_cons, List.foldl_nil, max_self,
      min_self, hcnt]
    rw [Option.some_inj]
    norm_num
  have hph : (mkRouteMetrics (18009 / 25) "R" cexRows).deliveriesPerHour
      = some (20000 / 2001) := by
    simp only [mkRouteMetrics, hdel, List.foldl_cons, List.foldl_nil, max_self,
      min_self, hcnt]
    rw [if_pos (by norm_num : (0 : ℚ) < ((18009 : ℚ) / 25 - 0) / 3600),
      Option.some_inj]
    norm_num
  have hpy1 : pyRound 1 (6003 / 500) = 12 := by
    have hx : (6003 / 500 : ℚ) * 10 ^ 1 = 6003 / 50 := by norm_num
    rw [pyRound, hx,
      halfEven_of_lt (6003 / 50) 120 (Int.floor_eq_iff.mpr (by norm_num))
        (by norm_num)]
    norm_num
  have hpy2 : pyRound 2 (20000 / 2001) = 10 := by
    have hx : (20000 / 2001 : ℚ) * 10 ^ 2 = 2000000 / 2001 := by norm_num
    rw [pyRound, hx,
      halfEven_of_gt (2000000 / 2001) 999 (Int.floor_eq_iff.mpr (by norm_num))
        (by norm_num)]
    norm_num
  have hexc : excPred (mkRouteMetrics (18009 / 25) "R" cexRows) = false := by
    simp only [excPred, storedMinutes, storedPerHour, hmsl, hph, hflag, hrem,
      Option.map_some', Option.getD_some, hpy1, hpy2]
    decide
  refine ⟨List.mem_singleton.mpr rfl, ?_, ?_, ?_⟩
  · rw [hph, Option.getD_some]
    norm_num
  · rw [hrem]
    decide
  · intro hmem
    rw [excTable, List.mem_filter] at hmem
    rw [hexc] at hmem
    exact absurd hmem.2 (by decide)

/-- C3 amended: a route row of the table is in the Exceptions subset iff its
status flag is NO_DELIVERED, or its stored minutes-since-last (rounded half
to even at 1 decimal, 0 when absent) exceeds 120 with remaining > 0, or its
stored deliveries-per-hour (rounded half to even at 2 decimals, 999 when
absent) is below 10 with remaining > 0. -/
theorem exceptions_membership_rounded_spec (now : ℚ) (rows : List RawRow)
    (m : RouteMetrics) (hm : m ∈ sortedRoutes now rows) :
    m ∈ excTable now rows ↔
      m.statusFlag = "NO_DELIVERED"
      ∨ (120 < (storedMinutes m).getD 0 ∧ 0 < m.remaining)
      ∨ ((storedPerHour m).getD 999 < 10 ∧ 0 < m.remaining) := by
  rw [excTable, List.mem_filter]
  simp [hm, excPred]
  tauto

/-- C3 amended witness: the never-delivered route "A" is an exception via
rule (a). -/
theorem exceptions_membership_rounded_spec_witness :
    mkRouteMetrics 600 "A" [rowA] ∈ excTable 600 [rowA] ↔
      (mkRouteMetrics 600 "A" [rowA]).statusFlag = "NO_DELIVERED"
      ∨ (120 < (storedMinutes (mkRouteMetrics 600 "A" [rowA])).getD 0
          ∧ 0 < (mkRouteMetrics 600 "A" [rowA]).remaining)
      ∨ ((storedPerHour (mkRouteMetrics 600 "A" [rowA])).getD 999 < 10
          ∧ 0 < (mkRouteMetrics 600 "A" [rowA]).remaining) :=
  exceptions_membership_rounded_spec 600 [rowA] (mkRouteMetrics 600 "A" [rowA])
    (List.mem_singleton.mpr rfl)

/-- C4: before 15:00 ET the 3pm-check subset is empty regardless of data,
from 15:00 on it holds exactly the routes with completionRate < 0.50; before
18:00 the 6pm-check subset is empty, from 18:00 on exactly the routes with
completionRate < 0.80; and each sheet's RuleApplied cell says "YES" exactly
when its gate hour was reached. -/
theorem time_gate_spec (now : ℚ) (nowHour : ℕ) (rows : List RawRow) :
    (nowHour < 15 → check3pm now nowHour rows = []) ∧
    (15 ≤ nowHour → ∀ m ∈ sortedRoutes now rows,
        (m ∈ check3pm now nowHour rows ↔ m.completionRate < 1 / 2)) ∧
    (ruleApplied3pm nowHour = "YES" ↔ 15 ≤ nowHour) ∧
    (nowHour < 18 → check6pm now nowHour rows = []) ∧
    (18 ≤ nowHour → ∀ m ∈ sortedRoutes now rows,
        (m ∈ check6pm now nowHour rows ↔ m.completionRate < 4 / 5)) ∧
    (ruleApplied6pm nowHour = "YES" ↔ 18 ≤ nowHour) := by
  refine ⟨?_, ?_, ?_, ?_, ?_, ?_⟩
  · intro h
    have hb : ¬ (after3pm nowHour = true) := by
      simp [after3pm]
      omega
    rw [check3pm, if_neg hb]
  · intro h m hm
    have hb : after3pm nowHour = true := by
      simp [after3pm]
      omega
    rw [check3pm, if_pos hb, List.mem_filter]
    simp [hm]
  · rw [ruleApplied3pm]
    by_cases hb : after3pm nowHour = true
    · rw [if_pos hb]
      simp only [after3pm, decide_eq_true_eq] at hb
      exact iff_of_true rfl hb
    · rw [if_neg hb]
      simp only [after3pm, decide_eq_true_eq] at hb
      exact iff_of_false (by decide) hb
  · intro h
    have hb : ¬ (after6pm nowHour = true) := by
      simp [after6pm]
      omega
    rw [check6pm, if_neg hb]
  · intro h m hm
    have hb : after6pm nowHour = true := by
      simp [after6pm]
      omega
    rw [check6pm, if_pos hb, List.mem_filter]
    simp [hm]
  · rw [ruleApplied6pm]
    by_cases hb : after6pm nowHour = true
    · rw [if_pos hb]
      simp only [after6pm, decide_eq_true_eq] at hb
      exact iff_of_true rfl hb
    · rw [if_neg hb]
      simp only [after6pm, decide_eq_true_eq] at hb
      exact iff_of_false (by decide) hb

/-- C4 witness: at 14:xx both gates are closed, at 15:xx the 3pm rule holds
as a membership criterion, and the RuleApplied records agree with the hour. -/
theorem time_gate_spec_witness :
    check3pm 600 14 [rowA] = [] ∧
    check6pm 600 17 [rowA] = [] ∧
    (mkRouteMetrics 600 "A" [rowA] ∈ check3pm 600 15 [rowA] ↔
      (mkRouteMetrics 600 "A" [rowA]).completionRate < 1 / 2) ∧
    (mkRouteMetrics 600 "A" [rowA] ∈ check6pm 600 18 [rowA] ↔
      (mkRouteMetrics 600 "A" [rowA]).completionRate < 4 / 5) ∧
    (ruleApplied3pm 14 = "YES" ↔ 15 ≤ 14) ∧
    (ruleApplied6pm 18 = "YES" ↔ 18 ≤ 18) :=
  ⟨(time_gate_spec 600 14 [rowA]).1 (by decide),
   (time_gate_spec 600 17 [rowA]).2.2.2.1 (by decide),
   (time_gate_spec 600 15 [rowA]).2.1 (by decide) (mkRouteMetrics 600 "A" [rowA])
     (List.mem_singleton.mpr rfl),
   (time_gate_spec 600 18 [rowA]).2.2.2.2.1 (by decide) (mkRouteMetrics 600 "A" [rowA])
     (List.mem_singleton.mpr rfl),
   (time_gate_spec 600 14 [rowA]).2.2.1,
   (time_gate_spec 600 18 [rowA]).2.2.2.2.2⟩

/-- C5: on an input with one never-delivered route "A" and one delivered
route "B", the sorted table places the HAS_DELIVERED route before the
NO_DELIVERED route (StatusFlag ascending sorts "HAS_DELIVERED" < 
"NO_DELIVERED"), contradicting the specified NO_DELIVERED-first order. -/
theorem sort_places_has_delivered_first :
    (sortedRoutes 600 [rowA, rowB]).map (fun m => (m.route, m.statusFlag))
      = [("B", "HAS_DELIVERED"), ("A", "NO_DELIVERED")] := by
  decide

/-- A literal per-route row used to instantiate carrier aggregation. -/
def sampleMetric : RouteMetrics :=
  { route := "R1", driverName := none, fleeName := some "FleetOne",
    total := 10, delivered := 6, failed := 1, remaining := 3,
    completionRate := 1, firstDeliveredAt := none, lastDeliveredAt := none,
    minutesSinceLast := some 75, hoursSinceFirst := some 2,
    deliveriesPerHour := some 3,
    statusFlag := "HAS_DELIVERED", alertBucket := "RED" }

/-- A second literal route row of the same fleet whose exact
deliveries-per-hour is 10/3. -/
def sampleMetricB : RouteMetrics :=
  { route := "R2", driverName := none, fleeName := some "FleetOne",
    total := 8, delivered := 5, failed := 0, remaining := 3,
    completionRate := 1, firstDeliveredAt := none, lastDeliveredAt := none,
    minutesSinceLast := some 20, hoursSinceFirst := some 1,
    deliveriesPerHour := some (10 / 3),
    statusFlag := "HAS_DELIVERED", alertBucket := "OK" }

/-- C7 counterexample: a FleetOne group with exact per-route rates 3 and
10/3.  The exact mean is 19/6 ≈ 3.1667, but the program stores
round2(mean(round2 values)) = round2((3 + 3.33)/2) = round2(3.165) = 3.16 =
79/25, so the claimed equality with the exact mean fails. -/
theorem carrier_avg_rounding_counterexample :
    (mkCarrierSummary "FleetOne"
        (carrierGroup [sampleMetric, sampleMetricB] "FleetOne")).avgDeliveriesPerHour
      = some (79 / 25) ∧
    ((carrierGroup [sampleMetric, sampleMetricB] "FleetOne").filterMap
          RouteMetrics.deliveriesPerHour).sum
        / (((carrierGroup [sampleMetric, sampleMetricB] "FleetOne").filterMap
          RouteMetrics.deliveriesPerHour).length : ℚ) = 19 / 6 ∧
    (79 / 25 : ℚ) ≠ 19 / 6 := by
  have hgrpR : (carrierGroup [sampleMetric, sampleMetricB] "FleetOne").filterMap
      storedPerHour = [pyRound 2 3, pyRound 2 (10 / 3)] := rfl
  have hgrpE : (carrierGroup [sampleMetric, sampleMetricB] "FleetOne").filterMap
      RouteMetrics.deliveriesPerHour = [(3 : ℚ), 10 / 3] := rfl
  have hq3 : pyRound 2 (3 : ℚ) = 3 := by
    have hx : (3 : ℚ) * 10 ^ 2 = 300 := by norm_num
    rw [pyRound, hx,
      halfEven_of_lt 300 300 (Int.floor_eq_iff.mpr (by norm_num)) (by norm_num)]
    norm_num
  have hq103 : pyRound 2 (10 / 3 : ℚ) = 333 / 100 := by
    have hx : (10 / 3 : ℚ) * 10 ^ 2 = 1000 / 3 := by norm_num
    rw [pyRound, hx,
      halfEven_of_lt (1000 / 3) 333 (Int.floor_eq_iff.mpr (by norm_num))
        (by norm_num)]
    norm_num
  have hqm : pyRound 2 (633 / 200 : ℚ) = 79 / 25 := by
    have hx : (633 / 200 : ℚ) * 10 ^ 2 = 633 / 2 := by norm_num
    rw [pyRound, hx,
      halfEven_of_tie_even (633 / 2) 316 (Int.floor_eq_iff.mpr (by norm_num))
        (by norm_num) (by decide)]
    norm_num
  refine ⟨?_, ?_, by norm_num⟩
  · simp only [mkCarrierSummary, hgrpR, hq3, hq103, List.isEmpty_cons,
      Bool.false_eq_true, if_false]
    rw [Option.some_inj]
    have hsl : (([3, 333 / 100] : List ℚ)).sum
        / ((([3, 333 / 100] : List ℚ)).length : ℚ) = 633 / 200 := by
      simp only [List.sum_cons, List.sum_nil, List.length_cons, List.length_nil]
      norm_num
    rw [hsl, hqm]
  · rw [hgrpE]
    simp only [List.sum_cons, List.sum_nil, List.length_cons, List.length_nil]
    norm_num

/-- C7 amended: for a carrier group (route rows grouped by fleet name, absent
fleet replaced by "UNKNOWN"), completionRate is summed delivered over summed
total, 0 when the summed total is 0; and the average deliveries-per-hour is
the 2-decimal half-even rounding of the mean of the stored (2-decimal
rounded) deliveriesPerHour values, ignoring absent values. -/
theorem carrier_summary_rounded_spec (tbl : List RouteMetrics) (k : String) :
    (((carrierGroup tbl k).map RouteMetrics.total).sum = 0 →
      (mkCarrierSummary k (carrierGroup tbl k)).completionRate = 0) ∧
    (((carrierGroup tbl k).map RouteMetrics.total).sum ≠ 0 →
      (mkCarrierSummary k (carrierGroup tbl k)).completionRate
        = (((carrierGroup tbl k).map RouteMetrics.delivered).sum : ℚ)
          / (((carrierGroup tbl k).map RouteMetrics.total).sum : ℚ)) ∧
    ((carrierGroup tbl k).filterMap storedPerHour ≠ [] →
      (mkCarrierSummary k (carrierGroup tbl k)).avgDeliveriesPerHour
        = some (pyRound 2 (((carrierGroup tbl k).filterMap storedPerHour).sum
          / (((carrierGroup tbl k).filterMap storedPerHour).length : ℚ)))) := by
  refine ⟨?_, ?_, ?_⟩
  · intro h
    simp [mkCarrierSummary, h]
  · intro h
    simp [mkCarrierSummary, h]
  · intro h
    simp [mkCarrierSummary, List.isEmpty_iff, h]

/-- C7 amended witness: the empty group of an absent key has rate 0; a
singleton FleetOne group has the quotient rate and the rounded singleton
mean. -/
theorem carrier_summary_rounded_spec_witness :
    (mkCarrierSummary "X" (carrierGroup [] "X")).completionRate = 0 ∧
    (mkCarrierSummary "FleetOne" (carrierGroup [sampleMetric] "FleetOne")).completionRate
      = (((carrierGroup [sampleMetric] "FleetOne").map RouteMetrics.delivered).sum : ℚ)
        / (((carrierGroup [sampleMetric] "FleetOne").map RouteMetrics.total).sum : ℚ) ∧
    (mkCarrierSummary "FleetOne" (carrierGroup [sampleMetric] "FleetOne")).avgDeliveriesPerHour
      = some (pyRound 2
          (((carrierGroup [sampleMetric] "FleetOne").filterMap storedPerHour).sum
            / (((carrierGroup [sampleMetric] "FleetOne").filterMap storedPerHour).length : ℚ))) :=
  ⟨(carrier_summary_rounded_spec [] "X").1 (by decide),
   (carrier_summary_rounded_spec [sampleMetric] "FleetOne").2.1 (by decide),
   (carrier_summary_rounded_spec [sampleMetric] "FleetOne").2.2 (by decide)⟩
